import Mathlib

/-!
Verification of the nvprime capability/state derivation and policy-mapping
core against its specification.  The repository ships the public C header
(src/include/nvprime.h); the data shapes below are embedded from that header.
Where only a declaration exists in the header, the behaviour is modelled from
the specification, as marked on each definition.
-/

namespace NvPrime

/- ====================================================================
   Architecture classifier (header lines 86-100)
   ==================================================================== -/

/-- Embedded from NvArchitecture (nvprime.h lines 86-97): the ordered
enumeration of GPU architecture generations, Unknown first. -/
inductive NvArchitecture where
  | unknown
  | kepler
  | maxwell
  | pascal
  | volta
  | turing
  | ampere
  | adaLovelace
  | hopper
  | blackwell
  deriving DecidableEq, Repr, Fintype

/-- The numeric enum value of each generation, as assigned in the header
(NV_ARCH_UNKNOWN = 0 .. NV_ARCH_BLACKWELL = 9); it orders the generations
oldest to newest with Unknown before all of them. -/
def NvArchitecture.gen : NvArchitecture → Nat
  | .unknown => 0
  | .kepler => 1
  | .maxwell => 2
  | .pascal => 3
  | .volta => 4
  | .turing => 5
  | .ampere => 6
  | .adaLovelace => 7
  | .hopper => 8
  | .blackwell => 9

/-- Modelled from the spec: the header declares nvprime_get_arch_name
(line 100) without a body; the spec (§4.1) requires a pure total function
with one literal name per enumeration value, including a defined name for
Unknown. -/
def nvprime_get_arch_name : NvArchitecture → String
  | .unknown => "Unknown"
  | .kepler => "Kepler"
  | .maxwell => "Maxwell"
  | .pascal => "Pascal"
  | .volta => "Volta"
  | .turing => "Turing"
  | .ampere => "Ampere"
  | .adaLovelace => "Ada Lovelace"
  | .hopper => "Hopper"
  | .blackwell => "Blackwell"

/-- Modelled from the spec: the classifier itself is absent from the header;
the spec (§4.1) requires a pure total map from raw chip identifiers to
generations.  The recognized chip identifiers and their documented
generations, one representative flagship chip per generation. -/
def chipTable : List (String × NvArchitecture) :=
  [("GK104", .kepler),
   ("GM204", .maxwell),
   ("GP102", .pascal),
   ("GV100", .volta),
   ("TU102", .turing),
   ("GA102", .ampere),
   ("AD102", .adaLovelace),
   ("GH100", .hopper),
   ("GB202", .blackwell)]

/-- Modelled from the spec: classify(raw_chip_id) -> ArchitectureGeneration,
pure and total; recognized identifiers map to their documented generation,
every other input maps to Unknown, never an error (§4.1). -/
def classify (chipId : String) : NvArchitecture :=
  match chipTable.find? (fun e => e.1 = chipId) with
  | some e => e.2
  | none => .unknown

/- ====================================================================
   Feature capability resolver (header lines 106-132, spec §4.2)
   ==================================================================== -/

/-- Embedded from the raw capability flag set the provider reports
(read_feature_flags in spec §6); one boolean per feature of the
NvGpuCapabilities matrix (nvprime.h lines 118-125). -/
structure RawFlags where
  rtx : Bool
  dlss : Bool
  dlss3 : Bool
  reflex : Bool
  nvenc : Bool
  power_management : Bool
  clock_control : Bool
  fan_control : Bool
  deriving DecidableEq, Repr

/-- Embedded from the feature-matrix booleans of NvGpuCapabilities
(nvprime.h lines 118-125). -/
structure FeatureMatrix where
  supports_rtx : Bool
  supports_dlss : Bool
  supports_dlss3 : Bool
  supports_reflex : Bool
  supports_nvenc : Bool
  supports_power_management : Bool
  supports_clock_control : Bool
  supports_fan_control : Bool
  deriving DecidableEq, Repr

/-- Modelled from the spec: the static architecture-support table (§4.2) is
not in the header; the minimum generation physically supporting each
feature, with Unknown (gen 0) below every threshold.  Ray tracing, base
upscaling and low-latency mode arrive with Turing; next-generation
upscaling with Ada Lovelace; hardware encode and the control knobs exist on
every known generation. -/
def archMinGen (a : NvArchitecture) (minGen : Nat) : Bool :=
  decide (minGen ≤ a.gen)

/-- Modelled from the spec: resolve_features(architecture, raw_flags) ->
FeatureMatrix (§4.2): each boolean is the conjunction of the static
architecture-support table and the corresponding raw flag; the function
never fails. -/
def resolve_features (a : NvArchitecture) (f : RawFlags) : FeatureMatrix :=
  { supports_rtx := archMinGen a NvArchitecture.turing.gen && f.rtx
    supports_dlss := archMinGen a NvArchitecture.turing.gen && f.dlss
    supports_dlss3 := archMinGen a NvArchitecture.adaLovelace.gen && f.dlss3
    supports_reflex := archMinGen a NvArchitecture.turing.gen && f.reflex
    supports_nvenc := archMinGen a NvArchitecture.kepler.gen && f.nvenc
    supports_power_management := archMinGen a NvArchitecture.kepler.gen && f.power_management
    supports_clock_control := archMinGen a NvArchitecture.kepler.gen && f.clock_control
    supports_fan_control := archMinGen a NvArchitecture.kepler.gen && f.fan_control }

/- ====================================================================
   Power & thermal model (header lines 212-259, spec §4.4)
   ==================================================================== -/

/-- Embedded from NvFanMode (nvprime.h lines 212-217). -/
inductive NvFanMode where
  | auto
  | manual
  | curve
  | zeroRpm
  deriving DecidableEq, Repr

/-- Embedded from NvPowerHealth (nvprime.h lines 219-224). -/
inductive NvPowerHealth where
  | optimal
  | moderate
  | throttling
  | critical
  deriving DecidableEq, Repr

/-- The numeric enum value of each health tier, as assigned in the header
(NV_HEALTH_OPTIMAL = 0 .. NV_HEALTH_CRITICAL = 3); it is the severity
order Optimal < Moderate < Throttling < Critical. -/
def NvPowerHealth.rank : NvPowerHealth → Nat
  | .optimal => 0
  | .moderate => 1
  | .throttling => 2
  | .critical => 3

/-- Embedded from NvPowerState (nvprime.h lines 233-249); the C float
power fields are modelled as rationals, the uint32_t temperature and fan
fields as naturals. -/
structure NvPowerState where
  power_draw_w : ℚ
  power_limit_w : ℚ
  power_limit_default_w : ℚ
  power_limit_min_w : ℚ
  power_limit_max_w : ℚ
  gpu_temp_c : ℕ
  memory_temp_c : ℕ
  hotspot_temp_c : ℕ
  thermal_target_c : ℕ
  thermal_slowdown_c : ℕ
  thermal_shutdown_c : ℕ
  fan_speed_percent : ℕ
  fan_speed_rpm : ℕ
  fan_target_percent : ℕ
  fan_mode : NvFanMode
  deriving DecidableEq, Repr

/-- Modelled from the spec: the header declares nvprime_power_get_health
(line 255) without a body; the spec (§4.4) gives the ordered threshold
comparison, first matching tier wins:
1. temp ≥ shutdown or draw ≥ limit_max -> Critical;
2. else temp ≥ slowdown or draw ≥ limit -> Throttling;
3. else temp ≥ target -> Moderate; 4. else Optimal. -/
def infer_health (s : NvPowerState) : NvPowerHealth :=
  if s.thermal_shutdown_c ≤ s.gpu_temp_c ∨ s.power_limit_max_w ≤ s.power_draw_w then
    .critical
  else if s.thermal_slowdown_c ≤ s.gpu_temp_c ∨ s.power_limit_w ≤ s.power_draw_w then
    .throttling
  else if s.thermal_target_c ≤ s.gpu_temp_c then
    .moderate
  else
    .optimal

/-- Modelled from the spec: nvprime_power_is_thermal_throttling (header
line 258) has no body; per §4.4 it is true iff the temperature clause of
tier Throttling or Critical holds, computed from its own clause alone. -/
def is_thermal_throttling (s : NvPowerState) : Bool :=
  decide (s.thermal_slowdown_c ≤ s.gpu_temp_c) ||
    decide (s.thermal_shutdown_c ≤ s.gpu_temp_c)

/-- Modelled from the spec: nvprime_power_is_power_throttling (header
line 259) has no body; per §4.4 it is true iff the power clause of tier
Throttling or Critical holds, computed from its own clause alone. -/
def is_power_throttling (s : NvPowerState) : Bool :=
  decide (s.power_limit_w ≤ s.power_draw_w) ||
    decide (s.power_limit_max_w ≤ s.power_draw_w)

/- ====================================================================
   Profile / efficiency policy tables (header lines 158-163, 203-206,
   226-231, 272-274; spec §4.5)
   ==================================================================== -/

/-- Embedded from NvPerformanceProfile (nvprime.h lines 158-163). -/
inductive NvPerformanceProfile where
  | maximum
  | balanced
  | efficient
  | quiet
  deriving DecidableEq, Repr, Fintype

/-- Embedded from NvEfficiencyMode (nvprime.h lines 226-231). -/
inductive NvEfficiencyMode where
  | performance
  | balanced
  | quiet
  | efficiency
  deriving DecidableEq, Repr, Fintype

/-- Modelled from the spec: nvprime_profile_gpu_clock_percent (header line
204) has no body; a static total table in [0,100], monotone across the
ordered intent with Maximum highest and Quiet lowest (§4.5). -/
def nvprime_profile_gpu_clock_percent : NvPerformanceProfile → ℕ
  | .maximum => 100
  | .balanced => 85
  | .efficient => 70
  | .quiet => 50

/-- Modelled from the spec: nvprime_profile_mem_clock_percent (header line
205) has no body; same §4.5 table invariants. -/
def nvprime_profile_mem_clock_percent : NvPerformanceProfile → ℕ
  | .maximum => 100
  | .balanced => 80
  | .efficient => 65
  | .quiet => 50

/-- Modelled from the spec: nvprime_profile_power_limit_percent (header line
206) has no body; same §4.5 table invariants. -/
def nvprime_profile_power_limit_percent : NvPerformanceProfile → ℕ
  | .maximum => 100
  | .balanced => 90
  | .efficient => 75
  | .quiet => 60

/-- Modelled from the spec: nvprime_efficiency_power_percent (header line
273) has no body; a static total table in [0,100] with Performance highest
and Efficiency lowest (§4.5). -/
def nvprime_efficiency_power_percent : NvEfficiencyMode → ℕ
  | .performance => 100
  | .balanced => 85
  | .quiet => 70
  | .efficiency => 60

/-- Modelled from the spec: nvprime_efficiency_thermal_target (header line
274) has no body; an absolute target temperature in degrees per mode, with
Performance allowing the hottest target and Efficiency the coolest (§4.5). -/
def nvprime_efficiency_thermal_target : NvEfficiencyMode → ℕ
  | .performance => 87
  | .balanced => 83
  | .quiet => 78
  | .efficiency => 72

/- ====================================================================
   State snapshot builder (header lines 165-182, 233-249; spec §4.3)
   ==================================================================== -/

/-- Embedded from NvCoreState (nvprime.h lines 165-173). -/
structure NvCoreState where
  gpu_clock_mhz : ℕ
  mem_clock_mhz : ℕ
  sm_clock_mhz : ℕ
  video_clock_mhz : ℕ
  pstate : ℕ
  gpu_utilization : ℕ
  mem_utilization : ℕ
  deriving DecidableEq, Repr

/-- Raw clock/pstate/utilization readings from the provider (spec §6,
read_clocks); a reading the provider reports as unavailable is none. -/
structure RawCoreReadings where
  gpu_clock_mhz : Option ℕ
  mem_clock_mhz : Option ℕ
  sm_clock_mhz : Option ℕ
  video_clock_mhz : Option ℕ
  pstate : Option ℕ
  gpu_utilization : Option ℕ
  mem_utilization : Option ℕ
  deriving DecidableEq, Repr

/-- Raw power/temperature/fan readings from the provider (spec §6,
read_power_thermal); a reading the provider reports as unavailable is
none. -/
structure RawPowerReadings where
  power_draw_w : Option ℚ
  power_limit_w : Option ℚ
  power_limit_default_w : Option ℚ
  power_limit_min_w : Option ℚ
  power_limit_max_w : Option ℚ
  gpu_temp_c : Option ℕ
  memory_temp_c : Option ℕ
  hotspot_temp_c : Option ℕ
  thermal_target_c : Option ℕ
  thermal_slowdown_c : Option ℕ
  thermal_shutdown_c : Option ℕ
  fan_speed_percent : Option ℕ
  fan_speed_rpm : Option ℕ
  fan_target_percent : Option ℕ
  fan_mode : Option NvFanMode
  deriving DecidableEq, Repr

/-- Defensive clamp of a percentage field to [0,100] (spec §4.3). -/
def clampPercent (n : ℕ) : ℕ := min n 100

/-- Modelled from the spec: build_core_state(raw) -> CoreState (§4.3) has
no body in the header; each field is copied from the raw reading, an
unavailable reading becomes the sentinel zero, and utilization fields are
clamped to [0,100]; the builder never fails. -/
def build_core_state (r : RawCoreReadings) : NvCoreState :=
  { gpu_clock_mhz := r.gpu_clock_mhz.getD 0
    mem_clock_mhz := r.mem_clock_mhz.getD 0
    sm_clock_mhz := r.sm_clock_mhz.getD 0
    video_clock_mhz := r.video_clock_mhz.getD 0
    pstate := r.pstate.getD 0
    gpu_utilization := clampPercent (r.gpu_utilization.getD 0)
    mem_utilization := clampPercent (r.mem_utilization.getD 0) }

/-- Modelled from the spec: build_power_state(raw) -> PowerState (§4.3) has
no body in the header; each field is copied, unavailable counts/clocks
become zero, an unknown fan mode becomes Auto, and percentage fields are
clamped to [0,100]; the builder never fails. -/
def build_power_state (r : RawPowerReadings) : NvPowerState :=
  { power_draw_w := r.power_draw_w.getD 0
    power_limit_w := r.power_limit_w.getD 0
    power_limit_default_w := r.power_limit_default_w.getD 0
    power_limit_min_w := r.power_limit_min_w.getD 0
    power_limit_max_w := r.power_limit_max_w.getD 0
    gpu_temp_c := r.gpu_temp_c.getD 0
    memory_temp_c := r.memory_temp_c.getD 0
    hotspot_temp_c := r.hotspot_temp_c.getD 0
    thermal_target_c := r.thermal_target_c.getD 0
    thermal_slowdown_c := r.thermal_slowdown_c.getD 0
    thermal_shutdown_c := r.thermal_shutdown_c.getD 0
    fan_speed_percent := clampPercent (r.fan_speed_percent.getD 0)
    fan_speed_rpm := r.fan_speed_rpm.getD 0
    fan_target_percent := clampPercent (r.fan_target_percent.getD 0)
    fan_mode := r.fan_mode.getD .auto }

/- ====================================================================
   Capability aggregator (header lines 106-138; spec §4.6, §7)
   ==================================================================== -/

/-- Error taxonomy of the aggregator and write paths (spec §7). -/
inductive NvError where
  | deviceNotFound
  | providerUnavailable
  | permissionDenied
  deriving DecidableEq, Repr

/-- Embedded from NvGpuCapabilities (nvprime.h lines 106-132); the char
array identity fields are modelled as strings, the float power fields as
rationals. -/
structure NvGpuCapabilities where
  index : ℕ
  name : String
  uuid : String
  architecture : NvArchitecture
  compute_major : ℤ
  compute_minor : ℤ
  vram_total_mb : ℕ
  vram_used_mb : ℕ
  pcie_bus_id : String
  pcie_gen : ℕ
  pcie_width : ℕ
  features : FeatureMatrix
  temperature_c : ℕ
  power_draw_w : ℚ
  power_limit_w : ℚ
  gpu_clock_mhz : ℕ
  mem_clock_mhz : ℕ
  pstate : ℕ
  deriving DecidableEq, Repr

/-- One device's raw data as read from the provider in a single query
(spec §6: read_identity, read_feature_flags, read_clocks,
read_power_thermal). -/
structure RawDeviceInfo where
  name : String
  uuid : String
  pcie_bus_id : String
  chip_id : String
  compute_major : ℤ
  compute_minor : ℤ
  vram_total_mb : ℕ
  vram_used_mb : ℕ
  pcie_gen : ℕ
  pcie_width : ℕ
  flags : RawFlags
  core : RawCoreReadings
  power : RawPowerReadings
  deriving DecidableEq, Repr

/-- The external device query provider (spec §6): an enumerated device
count and a per-index read that yields none when the collaborator cannot
be reached. -/
structure DeviceQueryProvider where
  deviceCount : ℕ
  readDevice : ℕ → Option RawDeviceInfo

/-- Modelled from the spec: the pure composition step of the aggregator
(§4.6): identity fields copied verbatim from the provider, architecture
classified, features resolved, state built. -/
def mkCapabilities (idx : ℕ) (d : RawDeviceInfo) : NvGpuCapabilities :=
  let arch := classify d.chip_id
  let core := build_core_state d.core
  let power := build_power_state d.power
  { index := idx
    name := d.name
    uuid := d.uuid
    architecture := arch
    compute_major := d.compute_major
    compute_minor := d.compute_minor
    vram_total_mb := d.vram_total_mb
    vram_used_mb := d.vram_used_mb
    pcie_bus_id := d.pcie_bus_id
    pcie_gen := d.pcie_gen
    pcie_width := d.pcie_width
    features := resolve_features arch d.flags
    temperature_c := power.gpu_temp_c
    power_draw_w := power.power_draw_w
    power_limit_w := power.power_limit_w
    gpu_clock_mhz := core.gpu_clock_mhz
    mem_clock_mhz := core.mem_clock_mhz
    pstate := core.pstate }

/-- Modelled from the spec: nvprime_get_gpu_caps (header line 138) has no
body; per §4.6 an index outside the enumerated range fails with
DeviceNotFound before any provider read, an unreachable collaborator
fails with ProviderUnavailable, and success composes one fresh record. -/
def get_capabilities (p : DeviceQueryProvider) (idx : ℕ) : Except NvError NvGpuCapabilities :=
  if p.deviceCount ≤ idx then
    .error .deviceNotFound
  else
    match p.readDevice idx with
    | none => .error .providerUnavailable
    | some d => .ok (mkCapabilities idx d)

/- ====================================================================
   Convenience aliases (nvprime.h lines 280-285)
   ==================================================================== -/

/-- Truncation of a rational toward zero, the semantics of the C cast
(int) applied to a float value. -/
def truncToInt (q : ℚ) : ℤ :=
  if 0 ≤ q then ⌊q⌋ else ⌈q⌉

/-- The per-index live query surface the aliases are built over: each
underlying function reads the device's current core or power snapshot. -/
structure LiveQueryState where
  coreState : ℕ → NvCoreState
  powerState : ℕ → NvPowerState

/-- Embedded from nvprime_power_get_power_draw (header line 262): the
current power draw in watts of the indexed device. -/
def nvprime_power_get_power_draw (st : LiveQueryState) (idx : ℕ) : ℚ :=
  (st.powerState idx).power_draw_w

/-- Embedded from nvprime_power_get_temperature (header line 269). -/
def nvprime_power_get_temperature (st : LiveQueryState) (idx : ℕ) : ℕ :=
  (st.powerState idx).gpu_temp_c

/-- Embedded from nvprime_core_get_gpu_clock (header line 191). -/
def nvprime_core_get_gpu_clock (st : LiveQueryState) (idx : ℕ) : ℕ :=
  (st.coreState idx).gpu_clock_mhz

/-- Embedded from nvprime_core_get_mem_clock (header line 192). -/
def nvprime_core_get_mem_clock (st : LiveQueryState) (idx : ℕ) : ℕ :=
  (st.coreState idx).mem_clock_mhz

/-- Embedded from nvprime_core_get_pstate (header line 199). -/
def nvprime_core_get_pstate (st : LiveQueryState) (idx : ℕ) : ℕ :=
  (st.coreState idx).pstate

/-- Embedded from the macro at nvprime.h line 281:
nvprime_get_gpu_temperature(idx) expands to
nvprime_power_get_temperature(idx). -/
def nvprime_get_gpu_temperature (st : LiveQueryState) (idx : ℕ) : ℕ :=
  nvprime_power_get_temperature st idx

/-- Embedded from the macro at nvprime.h line 282:
nvprime_get_gpu_power_usage(idx) expands to
((int)(nvprime_power_get_power_draw(idx) * 1000)). -/
def nvprime_get_gpu_power_usage (st : LiveQueryState) (idx : ℕ) : ℤ :=
  truncToInt (nvprime_power_get_power_draw st idx * 1000)

/-- Embedded from the macro at nvprime.h line 283. -/
def nvprime_get_gpu_clock (st : LiveQueryState) (idx : ℕ) : ℕ :=
  nvprime_core_get_gpu_clock st idx

/-- Embedded from the macro at nvprime.h line 284. -/
def nvprime_get_mem_clock (st : LiveQueryState) (idx : ℕ) : ℕ :=
  nvprime_core_get_mem_clock st idx

/-- Embedded from the macro at nvprime.h line 285. -/
def nvprime_get_pstate (st : LiveQueryState) (idx : ℕ) : ℕ :=
  nvprime_core_get_pstate st idx

/- ====================================================================
   Theorems
   ==================================================================== -/

/-- C1: for every PowerState, infer_health returns exactly the first
matching tier of the ordered threshold comparison: Critical iff the
shutdown/maximum-limit clause holds; Throttling iff that clause fails and
the slowdown/limit clause holds; Moderate iff both fail and temperature
has reached the thermal target; Optimal iff none holds.  The function is
total and the four characterizations are mutually exclusive, so tiers are
never combined. -/
theorem infer_health_first_match (s : NvPowerState) :
    (infer_health s = .critical ↔
      (s.thermal_shutdown_c ≤ s.gpu_temp_c ∨ s.power_limit_max_w ≤ s.power_draw_w)) ∧
    (infer_health s = .throttling ↔
      (¬(s.thermal_shutdown_c ≤ s.gpu_temp_c ∨ s.power_limit_max_w ≤ s.power_draw_w) ∧
        (s.thermal_slowdown_c ≤ s.gpu_temp_c ∨ s.power_limit_w ≤ s.power_draw_w))) ∧
    (infer_health s = .moderate ↔
      (¬(s.thermal_shutdown_c ≤ s.gpu_temp_c ∨ s.power_limit_max_w ≤ s.power_draw_w) ∧
        ¬(s.thermal_slowdown_c ≤ s.gpu_temp_c ∨ s.power_limit_w ≤ s.power_draw_w) ∧
        s.thermal_target_c ≤ s.gpu_temp_c)) ∧
    (infer_health s = .optimal ↔
      (¬(s.thermal_shutdown_c ≤ s.gpu_temp_c ∨ s.power_limit_max_w ≤ s.power_draw_w) ∧
        ¬(s.thermal_slowdown_c ≤ s.gpu_temp_c ∨ s.power_limit_w ≤ s.power_draw_w) ∧
        s.gpu_temp_c < s.thermal_target_c)) := by
  unfold infer_health
  split_ifs with h1 h2 h3 <;> simp_all [Nat.not_le]

/-- Helper: the health rank is monotone whenever each of the three
threshold clauses of the second state is implied by the corresponding
clause of the first. -/
lemma rank_le_of_clause_imp (s t : NvPowerState)
    (h1 : (s.thermal_shutdown_c ≤ s.gpu_temp_c ∨ s.power_limit_max_w ≤ s.power_draw_w) →
      (t.thermal_shutdown_c ≤ t.gpu_temp_c ∨ t.power_limit_max_w ≤ t.power_draw_w))
    (h2 : (s.thermal_slowdown_c ≤ s.gpu_temp_c ∨ s.power_limit_w ≤ s.power_draw_w) →
      (t.thermal_slowdown_c ≤ t.gpu_temp_c ∨ t.power_limit_w ≤ t.power_draw_w))
    (h3 : s.thermal_target_c ≤ s.gpu_temp_c → t.thermal_target_c ≤ t.gpu_temp_c) :
    (infer_health s).rank ≤ (infer_health t).rank := by
  unfold infer_health
  split_ifs <;> first
    | decide
    | (exfalso; tauto)

/-- C4: infer_health is monotonic in core temperature and in power draw:
raising the temperature (or the draw) while every other field stays fixed
never yields a strictly lower tier, under the severity order
Optimal < Moderate < Throttling < Critical given by the rank. -/
theorem infer_health_monotone :
    (∀ (s : NvPowerState) (t₁ t₂ : ℕ), t₁ ≤ t₂ →
      (infer_health { s with gpu_temp_c := t₁ }).rank ≤
        (infer_health { s with gpu_temp_c := t₂ }).rank) ∧
    (∀ (s : NvPowerState) (d₁ d₂ : ℚ), d₁ ≤ d₂ →
      (infer_health { s with power_draw_w := d₁ }).rank ≤
        (infer_health { s with power_draw_w := d₂ }).rank) := by
  constructor
  · intro s t₁ t₂ h
    apply rank_le_of_clause_imp <;> simp only [] <;> intro hc
    · rcases hc with hc | hc
      · exact Or.inl (le_trans hc h)
      · exact Or.inr hc
    · rcases hc with hc | hc
      · exact Or.inl (le_trans hc h)
      · exact Or.inr hc
    · exact le_trans hc h
  · intro s d₁ d₂ h
    apply rank_le_of_clause_imp <;> simp only [] <;> intro hc
    · rcases hc with hc | hc
      · exact Or.inl hc
      · exact Or.inr (le_trans hc h)
    · rcases hc with hc | hc
      · exact Or.inl hc
      · exact Or.inr (le_trans hc h)
    · exact hc

/-- A concrete Moderate-tier power state, the end-to-end scenario of the
spec (§8): temperature 84 just above target 83, well below slowdown 95,
draw 250 below limit 300. -/
def moderateSample : NvPowerState :=
  { power_draw_w := 250
    power_limit_w := 300
    power_limit_default_w := 300
    power_limit_min_w := 100
    power_limit_max_w := 350
    gpu_temp_c := 84
    memory_temp_c := 78
    hotspot_temp_c := 92
    thermal_target_c := 83
    thermal_slowdown_c := 95
    thermal_shutdown_c := 105
    fan_speed_percent := 55
    fan_speed_rpm := 1400
    fan_target_percent := 55
    fan_mode := .auto }

/-- Witness for C4 at concrete temperatures 10 ≤ 20 and draws 100 ≤ 200
over the sample state. -/
theorem infer_health_monotone_witness :
    ((10 : ℕ) ≤ 20 ∧
      (infer_health { moderateSample with gpu_temp_c := 10 }).rank ≤
        (infer_health { moderateSample with gpu_temp_c := 20 }).rank) ∧
    ((100 : ℚ) ≤ 200 ∧
      (infer_health { moderateSample with power_draw_w := 100 }).rank ≤
        (infer_health { moderateSample with power_draw_w := 200 }).rank) :=
  ⟨⟨by decide, infer_health_monotone.1 moderateSample 10 20 (by decide)⟩,
   ⟨by norm_num, infer_health_monotone.2 moderateSample 100 200 (by norm_num)⟩⟩

/-- C5: a PowerState whose core temperature equals thermal_target_c
exactly, while temperature and draw stay below the Throttling and
Critical thresholds, is classified Moderate, not Optimal: the
thermal_target_c comparison is an inclusive lower bound. -/
theorem infer_health_target_inclusive (s : NvPowerState)
    (heq : s.gpu_temp_c = s.thermal_target_c)
    (hslow : s.gpu_temp_c < s.thermal_slowdown_c)
    (hshut : s.gpu_temp_c < s.thermal_shutdown_c)
    (hlim : s.power_draw_w < s.power_limit_w)
    (hmax : s.power_draw_w < s.power_limit_max_w) :
    infer_health s = .moderate := by
  unfold infer_health
  rw [if_neg (by push_neg; exact ⟨by omega, hmax⟩)]
  rw [if_neg (by push_neg; exact ⟨by omega, hlim⟩)]
  rw [if_pos (by omega)]

/-- Witness for C5: the sample state with its temperature lowered to the
thermal target exactly satisfies every hypothesis and is Moderate. -/
theorem infer_health_target_inclusive_witness :
    infer_health { moderateSample with gpu_temp_c := 83 } = .moderate :=
  infer_health_target_inclusive { moderateSample with gpu_temp_c := 83 }
    (by decide) (by decide) (by decide) (by norm_num [moderateSample])
    (by norm_num [moderateSample])

/-- A concrete state that is Critical through the power clause alone: the
draw 400 exceeds even the maximum limit 350 while the temperature 60
stays far below every thermal threshold. -/
def powerOnlySample : NvPowerState :=
  { moderateSample with power_draw_w := 400, gpu_temp_c := 60 }

/-- C6: is_thermal_throttling holds iff the temperature clause of tier
Throttling or above holds (temp ≥ slowdown or temp ≥ shutdown), and
is_power_throttling holds iff the power clause does (draw ≥ limit or
draw ≥ maximum limit); each probe depends only on its own clause.  On the
spec scenario state (temp 84, target 83, slowdown 95, draw 250,
limit 300) the health is Moderate and both probes are false; and a state
Critical through power alone keeps the thermal probe false, so the probes
are not derived from the combined tier. -/
theorem throttling_probes_spec :
    (∀ s : NvPowerState,
      (is_thermal_throttling s = true ↔
        (s.thermal_slowdown_c ≤ s.gpu_temp_c ∨ s.thermal_shutdown_c ≤ s.gpu_temp_c)) ∧
      (is_power_throttling s = true ↔
        (s.power_limit_w ≤ s.power_draw_w ∨ s.power_limit_max_w ≤ s.power_draw_w))) ∧
    (infer_health moderateSample = .moderate ∧
      is_thermal_throttling moderateSample = false ∧
      is_power_throttling moderateSample = false) ∧
    (infer_health powerOnlySample = .critical ∧
      is_thermal_throttling powerOnlySample = false ∧
      is_power_throttling powerOnlySample = true) := by
  refine ⟨fun s => ⟨?_, ?_⟩, ⟨?_, ?_, ?_⟩, ⟨?_, ?_, ?_⟩⟩
  · simp [is_thermal_throttling]
  · simp [is_power_throttling]
  all_goals decide

/-- The raw flags of the Ada Lovelace end-to-end scenario (spec §8):
rtx, dlss and reflex present, dlss3 and nvenc absent. -/
def adaScenarioFlags : RawFlags :=
  { rtx := true, dlss := true, dlss3 := false, reflex := true,
    nvenc := false, power_management := false, clock_control := false,
    fan_control := false }

/-- C2: every boolean of resolve_features is true exactly when both the
static architecture-support table admits the feature and the raw flag is
set, so the absence of either yields false; an Unknown architecture gives
the all-false matrix for every flag set; and the Ada Lovelace scenario
with raw flags rtx/dlss/reflex set yields exactly those three features,
dlss3 and nvenc false. -/
theorem resolve_features_conjunctive :
    (∀ (a : NvArchitecture) (f : RawFlags),
      ((resolve_features a f).supports_rtx = true ↔
        (archMinGen a NvArchitecture.turing.gen = true ∧ f.rtx = true)) ∧
      ((resolve_features a f).supports_dlss = true ↔
        (archMinGen a NvArchitecture.turing.gen = true ∧ f.dlss = true)) ∧
      ((resolve_features a f).supports_dlss3 = true ↔
        (archMinGen a NvArchitecture.adaLovelace.gen = true ∧ f.dlss3 = true)) ∧
      ((resolve_features a f).supports_reflex = true ↔
        (archMinGen a NvArchitecture.turing.gen = true ∧ f.reflex = true)) ∧
      ((resolve_features a f).supports_nvenc = true ↔
        (archMinGen a NvArchitecture.kepler.gen = true ∧ f.nvenc = true)) ∧
      ((resolve_features a f).supports_power_management = true ↔
        (archMinGen a NvArchitecture.kepler.gen = true ∧ f.power_management = true)) ∧
      ((resolve_features a f).supports_clock_control = true ↔
        (archMinGen a NvArchitecture.kepler.gen = true ∧ f.clock_control = true)) ∧
      ((resolve_features a f).supports_fan_control = true ↔
        (archMinGen a NvArchitecture.kepler.gen = true ∧ f.fan_control = true))) ∧
    (∀ f : RawFlags, resolve_features .unknown f =
      { supports_rtx := false, supports_dlss := false, supports_dlss3 := false,
        supports_reflex := false, supports_nvenc := false,
        supports_power_management := false, supports_clock_control := false,
        supports_fan_control := false }) ∧
    resolve_features .adaLovelace adaScenarioFlags =
      { supports_rtx := true, supports_dlss := true, supports_dlss3 := false,
        supports_reflex := true, supports_nvenc := false,
        supports_power_management := false, supports_clock_control := false,
        supports_fan_control := false } := by
  refine ⟨fun a f => ?_, fun f => ?_, by decide⟩
  · simp [resolve_features, Bool.and_eq_true]
  · simp [resolve_features, archMinGen, NvArchitecture.gen]

/-- C3: classify maps every recognized chip identifier to its documented
generation and every identifier outside the recognized table to Unknown,
without failing; nvprime_get_arch_name is total with a non-empty literal
name for every generation, Unknown included, and the names are
architecture-specific (pairwise distinct). -/
theorem classify_total_spec :
    (∀ e ∈ chipTable, classify e.1 = e.2) ∧
    (∀ s : String, (∀ e ∈ chipTable, e.1 ≠ s) → classify s = .unknown) ∧
    (∀ a : NvArchitecture, nvprime_get_arch_name a ≠ "") ∧
    (∀ a b : NvArchitecture,
      nvprime_get_arch_name a = nvprime_get_arch_name b → a = b) := by
  refine ⟨by decide, fun s h => ?_, by decide, by decide⟩
  unfold classify
  cases hf : chipTable.find? (fun e => e.1 = s) with
  | none => rfl
  | some e =>
    have hp := List.find?_some hf
    simp only [decide_eq_true_eq] at hp
    exact absurd hp (h e (List.mem_of_find?_eq_some hf))

/-- Witness for C3: a recognized identifier classifies to its documented
generation and an unrecognized one to Unknown. -/
theorem classify_total_spec_witness :
    classify "AD102" = .adaLovelace ∧ classify "ZZ999" = .unknown :=
  ⟨classify_total_spec.1 ("AD102", .adaLovelace) (by decide),
    classify_total_spec.2.1 "ZZ999" (by decide)⟩

/-- C7: the profile and efficiency policy tables are total over their
enumerations with every percentage in [0,100]; the three profile tables
are monotone across the ordered intent
Maximum ≥ Balanced ≥ Efficient ≥ Quiet; and in each axis
Maximum/Performance is the highest entry and Quiet/Efficiency the lowest
(efficiency_thermal_target being an absolute temperature, it carries the
extreme-entry invariant but not the [0,100] bound). -/
theorem policy_tables_spec :
    (∀ p, nvprime_profile_gpu_clock_percent p ≤ 100) ∧
    (∀ p, nvprime_profile_mem_clock_percent p ≤ 100) ∧
    (∀ p, nvprime_profile_power_limit_percent p ≤ 100) ∧
    (∀ m, nvprime_efficiency_power_percent m ≤ 100) ∧
    (nvprime_profile_gpu_clock_percent .quiet ≤
        nvprime_profile_gpu_clock_percent .efficient ∧
      nvprime_profile_gpu_clock_percent .efficient ≤
        nvprime_profile_gpu_clock_percent .balanced ∧
      nvprime_profile_gpu_clock_percent .balanced ≤
        nvprime_profile_gpu_clock_percent .maximum) ∧
    (nvprime_profile_mem_clock_percent .quiet ≤
        nvprime_profile_mem_clock_percent .efficient ∧
      nvprime_profile_mem_clock_percent .efficient ≤
        nvprime_profile_mem_clock_percent .balanced ∧
      nvprime_profile_mem_clock_percent .balanced ≤
        nvprime_profile_mem_clock_percent .maximum) ∧
    (nvprime_profile_power_limit_percent .quiet ≤
        nvprime_profile_power_limit_percent .efficient ∧
      nvprime_profile_power_limit_percent .efficient ≤
        nvprime_profile_power_limit_percent .balanced ∧
      nvprime_profile_power_limit_percent .balanced ≤
        nvprime_profile_power_limit_percent .maximum) ∧
    (∀ p, nvprime_profile_gpu_clock_percent p ≤
        nvprime_profile_gpu_clock_percent .maximum ∧
      nvprime_profile_gpu_clock_percent .quiet ≤
        nvprime_profile_gpu_clock_percent p) ∧
    (∀ p, nvprime_profile_mem_clock_percent p ≤
        nvprime_profile_mem_clock_percent .maximum ∧
      nvprime_profile_mem_clock_percent .quiet ≤
        nvprime_profile_mem_clock_percent p) ∧
    (∀ p, nvprime_profile_power_limit_percent p ≤
        nvprime_profile_power_limit_percent .maximum ∧
      nvprime_profile_power_limit_percent .quiet ≤
        nvprime_profile_power_limit_percent p) ∧
    (∀ m, nvprime_efficiency_power_percent m ≤
        nvprime_efficiency_power_percent .performance ∧
      nvprime_efficiency_power_percent .efficiency ≤
        nvprime_efficiency_power_percent m) ∧
    (∀ m, nvprime_efficiency_thermal_target m ≤
        nvprime_efficiency_thermal_target .performance ∧
      nvprime_efficiency_thermal_target .efficiency ≤
        nvprime_efficiency_thermal_target m) := by
  decide

/-- C8: the snapshot builders are total: every field of the result is the
copied raw reading; an unavailable reading becomes its sentinel, zero for
counts and clocks and Auto for an unknown fan mode; and every utilization
or percentage field of the result lies in [0,100] whatever the raw input,
available readings being clamped through min with 100. -/
theorem build_state_spec :
    ∀ (r : RawCoreReadings) (q : RawPowerReadings) (v : ℕ) (w : ℚ)
      (m : NvFanMode),
    ((build_core_state r).gpu_utilization ≤ 100 ∧
      (build_core_state r).mem_utilization ≤ 100 ∧
      (build_power_state q).fan_speed_percent ≤ 100 ∧
      (build_power_state q).fan_target_percent ≤ 100) ∧
    ((build_core_state { r with gpu_clock_mhz := some v }).gpu_clock_mhz = v ∧
      (build_core_state { r with sm_clock_mhz := some v }).sm_clock_mhz = v ∧
      (build_core_state { r with pstate := some v }).pstate = v ∧
      (build_core_state { r with gpu_utilization := some v }).gpu_utilization
        = min v 100 ∧
      (build_power_state { q with power_draw_w := some w }).power_draw_w = w ∧
      (build_power_state { q with gpu_temp_c := some v }).gpu_temp_c = v ∧
      (build_power_state { q with fan_speed_percent := some v }).fan_speed_percent
        = min v 100 ∧
      (build_power_state { q with fan_mode := some m }).fan_mode = m) ∧
    ((build_core_state { r with gpu_clock_mhz := none }).gpu_clock_mhz = 0 ∧
      (build_core_state { r with video_clock_mhz := none }).video_clock_mhz = 0 ∧
      (build_core_state { r with pstate := none }).pstate = 0 ∧
      (build_core_state { r with gpu_utilization := none }).gpu_utilization = 0 ∧
      (build_power_state { q with power_draw_w := none }).power_draw_w = 0 ∧
      (build_power_state { q with gpu_temp_c := none }).gpu_temp_c = 0 ∧
      (build_power_state { q with fan_speed_rpm := none }).fan_speed_rpm = 0 ∧
      (build_power_state { q with fan_mode := none }).fan_mode = .auto) := by
  intro r q v w m
  refine ⟨⟨?_, ?_, ?_, ?_⟩, ?_, ?_⟩
  · exact min_le_right _ _
  · exact min_le_right _ _
  · exact min_le_right _ _
  · exact min_le_right _ _
  · simp [build_core_state, build_power_state, clampPercent]
  · simp [build_core_state, build_power_state, clampPercent]

/-- C9: an index at or beyond the enumerated device count fails with
DeviceNotFound, and the answer there is the same for any two providers
that agree on the count alone, so no provider read is performed; an
in-range index whose read cannot be reached fails with
ProviderUnavailable; a successful read yields one fresh record composed
from the raw data of this very call, with the identity fields copied
verbatim. -/
theorem get_capabilities_spec :
    (∀ (p : DeviceQueryProvider) (idx : ℕ), p.deviceCount ≤ idx →
      get_capabilities p idx = .error .deviceNotFound) ∧
    (∀ (p q : DeviceQueryProvider) (idx : ℕ),
      p.deviceCount = q.deviceCount → p.deviceCount ≤ idx →
      get_capabilities p idx = get_capabilities q idx) ∧
    (∀ (p : DeviceQueryProvider) (idx : ℕ), idx < p.deviceCount →
      p.readDevice idx = none →
      get_capabilities p idx = .error .providerUnavailable) ∧
    (∀ (p : DeviceQueryProvider) (idx : ℕ) (d : RawDeviceInfo),
      idx < p.deviceCount → p.readDevice idx = some d →
      get_capabilities p idx = .ok (mkCapabilities idx d)) ∧
    (∀ (idx : ℕ) (d : RawDeviceInfo),
      (mkCapabilities idx d).index = idx ∧
      (mkCapabilities idx d).name = d.name ∧
      (mkCapabilities idx d).uuid = d.uuid ∧
      (mkCapabilities idx d).pcie_bus_id = d.pcie_bus_id) := by
  refine ⟨fun p idx h => ?_, fun p q idx hc h => ?_, fun p idx h hr => ?_,
    fun p idx d h hr => ?_, fun idx d => ⟨rfl, rfl, rfl, rfl⟩⟩
  · simp [get_capabilities, h]
  · simp [get_capabilities, h, hc ▸ h]
  · simp [get_capabilities, Nat.not_le.mpr h, hr]
  · simp [get_capabilities, Nat.not_le.mpr h, hr]

/-- A concrete one-device provider for the C9 witness. -/
def sampleDevice : RawDeviceInfo :=
  { name := "NVIDIA GeForce RTX 4090"
    uuid := "GPU-0000"
    pcie_bus_id := "0000:01:00.0"
    chip_id := "AD102"
    compute_major := 8
    compute_minor := 9
    vram_total_mb := 24576
    vram_used_mb := 2048
    pcie_gen := 4
    pcie_width := 16
    flags := adaScenarioFlags
    core := { gpu_clock_mhz := some 2520, mem_clock_mhz := some 10501,
              sm_clock_mhz := some 2520, video_clock_mhz := some 1980,
              pstate := some 0, gpu_utilization := some 35,
              mem_utilization := some 20 }
    power := { power_draw_w := some 250, power_limit_w := some 300,
               power_limit_default_w := some 300, power_limit_min_w := some 100,
               power_limit_max_w := some 350, gpu_temp_c := some 84,
               memory_temp_c := some 78, hotspot_temp_c := some 92,
               thermal_target_c := some 83, thermal_slowdown_c := some 95,
               thermal_shutdown_c := some 105, fan_speed_percent := some 55,
               fan_speed_rpm := some 1400, fan_target_percent := some 55,
               fan_mode := some .auto } }

/-- A concrete provider enumerating exactly one device. -/
def sampleProvider : DeviceQueryProvider :=
  { deviceCount := 1, readDevice := fun _ => some sampleDevice }

/-- Witness for C9 on the concrete one-device provider: index 5 is out of
range and fails with DeviceNotFound, index 0 succeeds with the composed
record. -/
theorem get_capabilities_spec_witness :
    get_capabilities sampleProvider 5 = .error .deviceNotFound ∧
    get_capabilities sampleProvider 0 = .ok (mkCapabilities 0 sampleDevice) :=
  ⟨get_capabilities_spec.1 sampleProvider 5 (by decide),
   get_capabilities_spec.2.2.2.1 sampleProvider 0 sampleDevice (by decide) rfl⟩

/-- C10: nvprime_get_gpu_power_usage(idx) equals the integer truncation of
nvprime_power_get_power_draw(idx) * 1000, i.e. the watts reading converted
to milliwatts and truncated, while the other four convenience aliases are
direct pass-throughs with no unit change; at a fractional sample draw of
20002/3 W the conversion indeed truncates the sub-milliwatt remainder. -/
theorem gpu_power_usage_alias :
    (∀ (st : LiveQueryState) (idx : ℕ),
      nvprime_get_gpu_power_usage st idx =
        truncToInt (nvprime_power_get_power_draw st idx * 1000)) ∧
    (∀ (st : LiveQueryState) (idx : ℕ),
      nvprime_get_gpu_temperature st idx = nvprime_power_get_temperature st idx) ∧
    (∀ (st : LiveQueryState) (idx : ℕ),
      nvprime_get_gpu_clock st idx = nvprime_core_get_gpu_clock st idx) ∧
    (∀ (st : LiveQueryState) (idx : ℕ),
      nvprime_get_mem_clock st idx = nvprime_core_get_mem_clock st idx) ∧
    (∀ (st : LiveQueryState) (idx : ℕ),
      nvprime_get_pstate st idx = nvprime_core_get_pstate st idx) ∧
    truncToInt ((20002 / 3 : ℚ) * 1000) = 6667333 ∧
    truncToInt ((250 : ℚ) * 1000) = 250000 := by
  refine ⟨fun st idx => rfl, fun st idx => rfl, fun st idx => rfl,
    fun st idx => rfl, fun st idx => rfl, ?_, ?_⟩
  · norm_num [truncToInt]
  · norm_num [truncToInt]

end NvPrime
